import Mathlib

/-!
# Verification of the grant-report helper bot (`src/bot.py`)

A shallow embedding, in Lean 4, of the conversational document-filing bot:
the authorization check, the filename synthesis and collision-avoidance
probe, the public-URL poll, the dialogue state machine driven by
`handle_text_inputs` / `handle_document_upload` / `handle_photo_upload`,
and the upload pipeline `processing_document`.

Python strings are modelled as Lean `String` (lists of Unicode code
points), Python `int` as `Nat` (only non-negative values occur), failures
of remote calls as explicit result values in the environment, and an
uncaught Python exception as an explicit `exc` field of the step output.
External collaborators (Telegram transport, Yandex-disk client, pandas)
are modelled as oracles supplied through an `Env` record.  The file first
gives all definitions, then the supporting lemmas and the claim theorems.
-/

namespace GrantBot

/-! ## Python string helpers -/

/-- Python `s[:n]`: the first `n` code points of a string. -/
def pyTake (n : Nat) (s : String) : String := ⟨s.data.take n⟩

/-- Python `str.removeprefix`: drop `pre` if it is a prefix, else return
the string unchanged. -/
def pyRemovePrefix (pre s : String) : String :=
  if pre.data.isPrefixOf s.data then ⟨s.data.drop pre.data.length⟩ else s

/-- Python `str.endswith`. -/
def pyEndsWith (s suffix : String) : Bool := suffix.data.isSuffixOf s.data

/-- Python `str.strip()`: drop whitespace from both ends (modelled over
the ASCII whitespace class of `Char.isWhitespace`). -/
def pyStrip (s : String) : String :=
  ⟨((s.data.dropWhile Char.isWhitespace).reverse.dropWhile Char.isWhitespace).reverse⟩

/-- Python `needle in hay` for strings: substring containment on
code-point lists. -/
def substringB (needle : List Char) : List Char → Bool
  | [] => needle.isEmpty
  | c :: t => needle.isPrefixOf (c :: t) || substringB needle t

/-- The mathematical statement of substring containment. -/
def IsSubstring (needle hay : List Char) : Prop :=
  ∃ l r, hay = l ++ needle ++ r

/-! ## Decimal representation (Python `str(n)` / f-string formatting) -/

/-- Fuel-driven little-endian base-10 digit extraction; with fuel at
least `n` this agrees with `Nat.digits 10 n`. -/
def decDigits : Nat → Nat → List Nat
  | 0, _ => []
  | f + 1, n => if n = 0 then [] else n % 10 :: decDigits f (n / 10)

/-- The base-10 digits of `n`, little-endian. -/
def pyNatDigits (n : Nat) : List Nat := decDigits n n

/-- Python decimal formatting of a non-negative integer, as a list of
code points: most significant digit first, no leading zeros, with `"0"`
for zero. -/
def pyNatReprL (n : Nat) : List Char :=
  if n = 0 then ['0'] else ((pyNatDigits n).map Nat.digitChar).reverse

/-- Python `str(n)` for a non-negative integer. -/
def pyStr (n : Nat) : String := ⟨pyNatReprL n⟩

/-! ## `os.path.splitext` (no directory separators occur in our inputs) -/

/-- `os.path.splitext` on a bare file name: split at the last dot,
provided some non-dot character precedes it (leading dots of the base
name never start an extension). -/
def splitextL (l : List Char) : List Char × List Char :=
  match l.reverse.findIdx? (fun c => c = '.') with
  | none => (l, [])
  | some i =>
    let d := l.length - 1 - i
    if (l.take d).any (fun c => c ≠ '.') then (l.take d, l.drop d) else (l, [])

/-- `os.path.splitext` lifted to `String`. -/
def splitext (s : String) : String × String :=
  ((splitextL s.data).1.asString, (splitextL s.data).2.asString)

/-! ## Unique-filename probe (`get_unique_filename`, `src/bot.py:159`) -/

/-- The candidate name probed at index `k`: Python `f"{base}_{index}{ext}"`. -/
def candName (base ext : List Char) (k : Nat) : List Char :=
  base ++ '_' :: pyNatReprL k ++ ext

/-- Largest length of a name in the folder listing. -/
def maxLen (folder : List (List Char)) : Nat :=
  folder.foldr (fun x m => max x.length m) 0

/-- The `while` loop of `get_unique_filename`, probing indices `k`,
`k + 1`, … sequentially.  The loop of the source is unbounded; fuel is
supplied by the caller, and `probeFuel_sufficient` below shows the fuel
chosen in `gufL` is enough for the loop to exit on a free name. -/
def probeLoop (folder : List (List Char)) (base ext : List Char) : Nat → Nat → Nat
  | 0, k => k
  | f + 1, k => if candName base ext k ∈ folder then probeLoop folder base ext f (k + 1) else k

/-- `get_unique_filename(folder_path, filename)` from `src/bot.py`:
split the name into base and extension, return it unchanged when no such
name exists in the folder, else probe `base_1`, `base_2`, … in order and
return the first candidate that does not exist in the folder. -/
def gufL (folder : List (List Char)) (filename : List Char) : List Char :=
  if (splitextL filename).1 ++ (splitextL filename).2 ∈ folder then
    candName (splitextL filename).1 (splitextL filename).2
      (probeLoop folder (splitextL filename).1 (splitextL filename).2
        (10 ^ (maxLen folder + 1) + 1) 1)
  else (splitextL filename).1 ++ (splitextL filename).2

/-- `get_unique_filename` lifted to `String`. -/
def get_unique_filename (folder : List String) (filename : String) : String :=
  (gufL (folder.map String.data) filename.data).asString

/-- The probe candidate at `String` level: `base ++ "_" ++ str(k) ++ ext`. -/
def strCand (base ext : String) (k : Nat) : String :=
  base ++ "_" ++ pyStr k ++ ext

/-! ## Amount validation (`re.match(r"^\d+(\.\d{1,2})?$", ...)`) -/

/-- One anchored match of `\d+(\.\d{1,2})?` against the whole list. -/
def sumCore (l : List Char) : Bool :=
  let ds := l.takeWhile Char.isDigit
  let rest := l.dropWhile Char.isDigit
  !ds.isEmpty &&
    (match rest with
     | [] => true
     | '.' :: t => t.all Char.isDigit && decide (1 ≤ t.length) && decide (t.length ≤ 2)
     | _ => false)

/-- Python `re.match(r"^\d+(\.\d{1,2})?$", s)` is not `none`: the `$`
anchor also matches just before a single newline that ends the string. -/
def pyMatchSum (s : String) : Bool :=
  sumCore s.data ||
    (match s.data.getLast? with
     | some '\n' => sumCore s.data.dropLast
     | _ => false)

/-! ## Date validation (`datetime.strptime(s, "%d-%m-%y")`) -/

/-- Numeric value of an ASCII digit. -/
def digitVal (c : Char) : Nat := c.toNat - '0'.toNat

/-- The `%d` token of `_strptime`: `3[01]|[12]\d|0[1-9]|[1-9]`, i.e. one
digit `1`–`9` or two digits with value `01`–`31`. -/
def dayTok : List Char → Option Nat
  | [c] => if c.isDigit ∧ c ≠ '0' then some (digitVal c) else none
  | [c1, c2] =>
    if c1.isDigit ∧ c2.isDigit then
      if 1 ≤ 10 * digitVal c1 + digitVal c2 ∧ 10 * digitVal c1 + digitVal c2 ≤ 31 then
        some (10 * digitVal c1 + digitVal c2)
      else none
    else none
  | _ => none

/-- The `%m` token of `_strptime`: `1[0-2]|0[1-9]|[1-9]`. -/
def monthTok : List Char → Option Nat
  | [c] => if c.isDigit ∧ c ≠ '0' then some (digitVal c) else none
  | [c1, c2] =>
    if c1.isDigit ∧ c2.isDigit then
      if 1 ≤ 10 * digitVal c1 + digitVal c2 ∧ 10 * digitVal c1 + digitVal c2 ≤ 12 then
        some (10 * digitVal c1 + digitVal c2)
      else none
    else none
  | _ => none

/-- The `%y` token of `_strptime`: exactly two digits. -/
def yearTok : List Char → Option Nat
  | [c1, c2] =>
    if c1.isDigit ∧ c2.isDigit then some (10 * digitVal c1 + digitVal c2) else none
  | _ => none

/-- `%y` pivot: `00`–`68` map to `2000`–`2068`, `69`–`99` to `1969`–`1999`. -/
def yearOfTok (y : Nat) : Nat := if y ≤ 68 then 2000 + y else 1900 + y

/-- Gregorian leap year, as validated by `datetime`. -/
def isLeap (year : Nat) : Bool :=
  year % 4 == 0 && (year % 100 != 0 || year % 400 == 0)

/-- Days in a month, as validated by `datetime`. -/
def daysInMonth (m year : Nat) : Nat :=
  if m = 2 then (if isLeap year then 29 else 28)
  else if m = 4 ∨ m = 6 ∨ m = 9 ∨ m = 11 then 30 else 31

/-- `datetime.strptime(s, "%d-%m-%y")`: the format regex must consume the
whole string, then the day must be a possible calendar day of the month
(otherwise the `datetime` constructor raises `ValueError`, which the bot
catches exactly like a parse failure). -/
def pyStrptimeDMY (s : String) : Option (Nat × Nat × Nat) :=
  match (s.data.splitOn '-').map id with
  | [d, m, y] =>
    match dayTok d, monthTok m, yearTok y with
    | some dv, some mv, some yv =>
      if dv ≤ daysInMonth mv (yearOfTok yv) then some (dv, mv, yv) else none
    | _, _, _ => none
  | _ => none

/-! ## Public-URL poll (`create_file_public_url`, `src/bot.py:171`) -/

/-- `waiting_times = [(i+1)**2 - (i) for i in range(attempts)]` with
`attempts = 5`. -/
def waitingTimes : List Nat := (List.range 5).map (fun i => (i + 1) ^ 2 - i)

/-- The degraded-success text returned when no URL appeared. -/
def linkUnavailableMsg : String :=
  "Ссылка недоступна\nВозможно такой файл уже был загружен ранее, если нет, то произошла ошибка, попробуйте ещё раз"

/-- Observable trace of one poll run: the URL found (if any), the sleeps
performed, and how many `get_meta` attempts the loop made. -/
structure PollResult where
  url : Option String
  waits : List Nat
  attempts : Nat
deriving DecidableEq, Repr

/-- The `for i in range(attempts)` loop: query the metadata oracle at
attempt `i`; stop on a URL, otherwise sleep `waiting_times[i]` and go on. -/
def pollAux (f : Nat → Option String) : List Nat → PollResult
  | [] => ⟨none, [], 0⟩
  | i :: rest =>
    match f i with
    | some u => ⟨some u, [], 1⟩
    | none =>
      let r := pollAux f rest
      ⟨r.url, waitingTimes.getD i 0 :: r.waits, r.attempts + 1⟩

/-- `create_file_public_url`: up to 5 attempts (an initial discarded
`get_meta` call aside), then the degraded-success message when no URL was
observed. -/
def create_file_public_url (f : Nat → Option String) : String × PollResult :=
  let r := pollAux f (List.range 5)
  (match r.url with
   | some u => u
   | none => linkUnavailableMsg, r)

/-! ## Filename synthesis (`processing_document`, `src/bot.py:217`) -/

/-- `base_name = f"{short_category}_{short_item}_{typedoc}_{summ}_{date}"`. -/
def synthesizeBase (short_category short_item typedoc summ date : String) : String :=
  short_category ++ "_" ++ short_item ++ "_" ++ typedoc ++ "_" ++ summ ++ "_" ++ date

/-- Base name plus the original extension, the candidate handed to the
uniqueness probe. -/
def synthesize (short_category short_item typedoc summ date ext : String) : String :=
  synthesizeBase short_category short_item typedoc summ date ++ ext

/-- Join a list of fragments with a separator. -/
def joinSep (sep : String) : List String → String
  | [] => ""
  | [x] => x
  | x :: y :: t => x ++ sep ++ joinSep sep (y :: t)

/-- The specification's reading of synthesis: the five fields joined by
the fixed separator `"_"`, in that fixed order, then the extension. -/
def synthesizeSpec (short_category short_item typedoc summ date ext : String) : String :=
  joinSep "_" [short_category, short_item, typedoc, summ, date] ++ ext

/-! ## Dialogue state machine -/

/-- The closed enumeration of `state` strings stored in
`dp.workflow_data`. -/
inductive BState where
  | awaiting_template_name
  | awaiting_template_file
  | awaiting_template_choice
  | awaiting_category
  | awaiting_item
  | awaiting_typedoc
  | awaiting_sum
  | awaiting_date_choice
  | awaiting_custom_date
  | uploading_file
deriving DecidableEq, Repr

/-- One row of the template spreadsheet, the four required columns. -/
structure Row where
  category : String
  item : String
  shortCategory : String
  shortItem : String
deriving DecidableEq, Repr

/-- One user's `dp.workflow_data` entry: the current state plus the
accumulated field bag (absent keys are `none`). -/
structure StateData where
  state : BState
  templateName : Option String := none
  df : Option (List Row) := none
  category : Option String := none
  shortCategory : Option String := none
  shortItem : Option String := none
  typedoc : Option String := none
  summ : Option String := none
  date : Option String := none
deriving DecidableEq, Repr

/-- Outcomes of a Yandex-disk call. -/
inductive RemoteErr where
  | pathExists
  | alreadyPublic
  | other
deriving DecidableEq, Repr

/-- An uncaught Python exception escaping the handler. -/
inductive PyExc where
  | remote (e : RemoteErr)
  | keyError
  | indexError
  | typeError
deriving DecidableEq, Repr

/-- Result of parsing an uploaded spreadsheet (`pd.read_excel`). -/
inductive XlsxContent where
  | unreadable
  | table (cols : List String)
deriving DecidableEq, Repr

/-- An inbound Telegram message, as far as the handlers inspect it. -/
inductive Msg where
  | text (s : String)
  | document (filename : String) (content : XlsxContent)
  | photo
deriving DecidableEq, Repr

/-- External-world oracles for one message-handling step: the clock, the
template listing, the destination-folder listing, and the outcome of each
remote call the handlers may perform. -/
structure Env where
  nowDate : String
  nowStamp : String
  templates : List String
  dfOf : String → List Row
  docsFolder : List String
  mkdirRes : Option RemoteErr
  uploadRes : Option RemoteErr
  publishRes : Option RemoteErr
  tmplUploadOk : Bool
  metaUrl : Nat → Option String

/-- Observable outcome of handling one message for one user: the user's
conversation-state entry afterwards, the user's template binding
afterwards, the replies sent, and an escaped exception if any. -/
structure StepOut where
  entry : Option StateData
  binding : Option String
  replies : List String
  exc : Option PyExc
deriving DecidableEq, Repr

/-- The fixed document-type lookup `d_typedoc`. -/
def d_typedoc : List (String × String) :=
  [("Кассовый чек", "Чек"), ("Ведомость на вручение", "ВВруч"), ("Акт", "Акт"),
   ("Товарная накладная", "ТНакл"), ("Договор", "Дгвр"), ("Гарантийный Талон", "Гарант"),
   ("Документ", "Док")]

/-- The required spreadsheet columns. -/
def requiredCols : List String :=
  ["Категория", "Статья Расходов", "Категория_Short", "Статья Расходов_Short"]

/-- The rejection sent to unauthorized users. -/
def denyMsg : String := "❌ Доступ запрещён. Вы не авторизованы."

/-- The main-menu greeting sent by `cmd_start`. -/
def welcomeMsg : String := "✅ Добро пожаловать! Выберите действие:"

/-- `is_authorized` from `src/bot.py:58`: `str(user_id) in f.read()` — a
plain substring test against the whole file, `False` when the file is
missing (`usersFile = none`). -/
def is_authorized (usersFile : Option String) (user_id : Nat) : Bool :=
  match usersFile with
  | none => false
  | some contents => substringB (pyStr user_id).data contents.data

/-- `processing_document` (`src/bot.py:190`): synthesize the name, make
it unique, `mkdir` (ignoring "already exists"), upload (no handler —
failures escape), publish (ignoring "already public"), poll for the URL,
report, pop the state and re-show the menu. -/
def processing_document (env : Env) (binding : Option String) (entry : Option StateData)
    (att : Msg) : StepOut :=
  let origFilename : Option String :=
    match att with
    | .document f _ => some f
    | .photo => some ("photo_" ++ env.nowStamp ++ ".jpg")
    | .text _ => none
  match origFilename with
  | none => ⟨entry, binding, ["❌ Не удалось получить файл. Попробуйте снова."], none⟩
  | some orig =>
    let sc := (entry.bind (·.shortCategory)).getD "БезКат"
    let si := (entry.bind (·.shortItem)).getD "БезСтат"
    let td := (entry.bind (·.typedoc)).getD "Док"
    let summ := (entry.bind (·.summ)).getD "0"
    let date := (entry.bind (·.date)).getD env.nowDate
    let base_name := synthesizeBase sc si td summ date
    let ext := (splitext orig).2
    match binding with
    | none => ⟨entry, binding, ["❌ Не удалось определить текущий шаблон."], none⟩
    | some _tmpl =>
      let filename := get_unique_filename env.docsFolder (base_name ++ ext)
      let pub := create_file_public_url env.metaUrl
      let successOut : StepOut :=
        ⟨none, binding,
          ["✅ Файл успешно загружен как " ++ filename ++ "\nСсылка на файл: " ++ pub.1,
           welcomeMsg], none⟩
      let publishStep : StepOut :=
        match env.publishRes with
        | some RemoteErr.alreadyPublic => successOut
        | some e => ⟨entry, binding, [], some (PyExc.remote e)⟩
        | none => successOut
      let uploadStep : StepOut :=
        match env.uploadRes with
        | some e => ⟨entry, binding, [], some (PyExc.remote e)⟩
        | none => publishStep
      match env.mkdirRes with
      | some RemoteErr.pathExists => uploadStep
      | some e => ⟨entry, binding, [], some (PyExc.remote e)⟩
      | none => uploadStep

/-- `handle_text_inputs` (`src/bot.py:333`): the "back" command, then a
branch per dialogue state.  `text0` is the raw `message.text`; branches
use the stripped or the raw text exactly as the source does. -/
def handle_text_inputs (env : Env) (binding : Option String) (entry : Option StateData)
    (text0 : String) : StepOut :=
  let text := pyStrip text0
  if text = "🔙 Назад" then ⟨none, binding, [welcomeMsg], none⟩
  else
    match entry with
    | none => ⟨none, binding, [], none⟩
    | some sd =>
      match sd.state with
      | .awaiting_template_name =>
        if (text ++ ".xlsx") ∈ env.templates then
          ⟨some sd, binding, ["❌ Шаблон с таким названием уже существует. Попробуйте другое."],
            none⟩
        else
          ⟨some { state := .awaiting_template_file, templateName := some text }, binding,
            ["Отправьте шаблон Excel-файлом (.xlsx), содержащим нужные столбцы."], none⟩
      | .awaiting_template_file => ⟨some sd, binding, [], none⟩
      | .awaiting_template_choice =>
        if text ∈ env.templates then
          ⟨none, some text,
            ["✅ Шаблон \x27" ++ text ++ "\x27 выбран.", welcomeMsg], none⟩
        else ⟨some sd, binding, ["❌ Такого шаблона нет. Попробуйте снова."], none⟩
      | .awaiting_category =>
        match sd.df with
        | none => ⟨some sd, binding, [], some PyExc.keyError⟩
        | some df =>
          if (df.map (·.category)).contains text then
            ⟨some { sd with category := some text, state := .awaiting_item }, binding,
              ["Выберите статью расходов:"], none⟩
          else ⟨some sd, binding, ["❌ Неверная категория. Попробуйте снова."], none⟩
      | .awaiting_item =>
        match sd.df with
        | none => ⟨some sd, binding, [], some PyExc.keyError⟩
        | some df =>
          let validRows := df.filter (fun r => sd.category == some r.category && r.item == text)
          if validRows.isEmpty then
            match (df.filter (fun r => sd.category == some r.category)).head? with
            | none => ⟨some sd, binding, [], some PyExc.indexError⟩
            | some row =>
              ⟨some { sd with state := .awaiting_typedoc
                              shortCategory := some row.shortCategory
                              shortItem := some (pyTake 6 text) }, binding,
                ["Выберите тип документа:"], none⟩
          else
            match validRows.head? with
            | none => ⟨some sd, binding, [], some PyExc.indexError⟩
            | some row =>
              ⟨some { sd with state := .awaiting_typedoc
                              shortCategory := some row.shortCategory
                              shortItem := some row.shortItem }, binding,
                ["Выберите тип документа:"], none⟩
      | .awaiting_typedoc =>
        ⟨some { sd with typedoc := some ((d_typedoc.lookup text0).getD (pyTake 6 text0))
                        state := .awaiting_sum }, binding, ["Укажите сумму в рублях:"], none⟩
      | .awaiting_sum =>
        if pyMatchSum text0 then
          ⟨some { sd with summ := some text0, state := .awaiting_date_choice }, binding,
            ["Выберите дату:"], none⟩
        else ⟨some sd, binding, ["❌ Введите корректную сумму (только цифры, можно с точкой)."],
          none⟩
      | .awaiting_date_choice =>
        if text0 = "Сегодня" then
          ⟨some { sd with date := some env.nowDate, state := .uploading_file }, binding,
            ["📄 Загрузите файл. Если это картинка, прикрепите её, как документ"], none⟩
        else if text0 = "Своя дата" then
          ⟨some { sd with state := .awaiting_custom_date }, binding,
            ["Введите дату в формате ДД-ММ-ГГ:"], none⟩
        else ⟨some sd, binding, ["❌ Пожалуйста, выберите \x27Сегодня\x27 или \x27Своя дата\x27"],
          none⟩
      | .awaiting_custom_date =>
        match pyStrptimeDMY text0 with
        | some _ =>
          ⟨some { sd with date := some text0, state := .uploading_file }, binding,
            ["📄 Загрузите файл. Если это картинка, прикрепите её, как документ"], none⟩
        | none => ⟨some sd, binding, ["❌ Некорректный формат даты. Введите в формате ДД-ММ-ГГ"],
            none⟩
      | .uploading_file => ⟨some sd, binding, [], none⟩

/-- `handle_document_upload` (`src/bot.py:443`): the template-file
registration branch, the upload branch, and the fallback reply.  The
column-list rejection text joins a Python `set`, whose order is
unspecified; the model fixes one order. -/
def handle_document_upload (env : Env) (binding : Option String) (entry : Option StateData)
    (filename : String) (content : XlsxContent) : StepOut :=
  if entry.map (·.state) = some BState.awaiting_template_file then
    if !(pyEndsWith filename ".xlsx") then
      ⟨entry, binding, ["❌ Поддерживаются только .xlsx-файлы."], none⟩
    else
      match content with
      | .unreadable =>
        ⟨entry, binding, ["❌ Не удалось прочитать файл. Убедитесь, что это Excel."], none⟩
      | .table cols =>
        if !(requiredCols.all (fun c => cols.contains c)) then
          ⟨entry, binding,
            ["❌ Файл должен содержать столбцы: Категория, Статья Расходов, Категория_Short, Статья Расходов_Short"],
            none⟩
        else
          match entry.bind (·.templateName) with
          | none => ⟨entry, binding, [], some PyExc.keyError⟩
          | some _tname =>
            if !env.tmplUploadOk then
              ⟨entry, binding, ["❌ Не удалось загрузить файл на Яндекс.Диск."], none⟩
            else
              match binding with
              | none => ⟨entry, binding, [], some PyExc.typeError⟩
              | some _tmpl =>
                match env.mkdirRes with
                | some RemoteErr.pathExists => ⟨none, binding, [welcomeMsg], none⟩
                | some e => ⟨entry, binding, [], some (PyExc.remote e)⟩
                | none => ⟨none, binding, [welcomeMsg], none⟩
  else if entry.map (·.state) = some BState.uploading_file then
    processing_document env binding entry (Msg.document filename content)
  else ⟨entry, binding, ["❌ Сейчас бот не ожидает загрузки файла."], none⟩

/-- `handle_photo_upload` (`src/bot.py:504`). -/
def handle_photo_upload (env : Env) (binding : Option String)
    (entry : Option StateData) : StepOut :=
  if entry.map (·.state) = some BState.uploading_file then
    processing_document env binding entry Msg.photo
  else ⟨entry, binding, ["❌ Сейчас бот не ожидает загрузки файла."], none⟩

/-- The aiogram dispatch for one user's message: the authorization gate
of `require_authorization` (every handler is wrapped in it), then the
handlers in registration order: `/start`, the three exact-text menu
commands, generic text, document, photo. -/
def handle_message (env : Env) (auth : Bool) (binding : Option String)
    (entry : Option StateData) (msg : Msg) : StepOut :=
  if !auth then ⟨entry, binding, [denyMsg], none⟩
  else
    match msg with
    | .text s =>
      if s = "/start" then ⟨entry, binding, [welcomeMsg], none⟩
      else if s = "✏️ Создать шаблон" then
        ⟨some { state := BState.awaiting_template_name }, binding,
          ["Введите название шаблона:"], none⟩
      else if s = "📄 Выбрать шаблон" then
        if env.templates.isEmpty then ⟨entry, binding, ["❌ Шаблоны не найдены."], none⟩
        else ⟨some { state := BState.awaiting_template_choice }, binding,
          ["Выберите шаблон:"], none⟩
      else if s = "📂 Загрузить файл" then
        match binding with
        | none =>
          ⟨entry, binding,
            ["❌ Сначала выберите шаблон с помощью команды \x27📄 Выбрать шаблон\x27"], none⟩
        | some t =>
          ⟨some { state := BState.awaiting_category, df := some (env.dfOf t) }, binding,
            ["Выберите категорию:"], none⟩
      else handle_text_inputs env binding entry s
    | .document f c => handle_document_upload env binding entry f c
    | .photo => handle_photo_upload env binding entry

/-! ## Supporting lemmas -/

theorem substringB_iff (needle hay : List Char) :
    substringB needle hay = true ↔ IsSubstring needle hay := by
  induction hay with
  | nil =>
    simp only [substringB, List.isEmpty_iff, IsSubstring]
    constructor
    · rintro rfl; exact ⟨[], [], rfl⟩
    · rintro ⟨l, r, h⟩
      rcases List.append_eq_nil.mp (List.append_eq_nil.mp h.symm).1 with ⟨-, h1⟩
      exact h1
  | cons c t ih =>
    simp only [substringB, Bool.or_eq_true, ih, IsSubstring]
    constructor
    · rintro (hp | ⟨l, r, rfl⟩)
      · rcases List.isPrefixOf_iff_prefix.mp hp with ⟨r, hr⟩
        exact ⟨[], r, hr.symm⟩
      · exact ⟨c :: l, r, rfl⟩
    · rintro ⟨l, r, h⟩
      cases l with
      | nil =>
        left
        exact List.isPrefixOf_iff_prefix.mpr ⟨r, by simpa using h.symm⟩
      | cons x xs =>
        right
        have h' : c :: t = x :: (xs ++ (needle ++ r)) := by simpa using h
        refine ⟨xs, r, ?_⟩
        injection h' with h1 h2
        exact h2.trans (List.append_assoc xs needle r).symm

theorem decDigits_eq_digits (f : Nat) :
    ∀ n, n ≤ f → decDigits f n = Nat.digits 10 n := by
  induction f with
  | zero => intro n hn; interval_cases n; simp [decDigits]
  | succ f ih =>
    intro n hn
    by_cases h0 : n = 0
    · subst h0; simp [decDigits]
    · rw [decDigits, if_neg h0]
      have hdiv : n / 10 ≤ f := by
        have := Nat.div_lt_self (Nat.pos_of_ne_zero h0) (by norm_num : (1 : Nat) < 10)
        omega
      rw [ih (n / 10) hdiv]
      exact (Nat.digits_def' (by norm_num) (Nat.pos_of_ne_zero h0)).symm

theorem pyNatDigits_eq (n : Nat) : pyNatDigits n = Nat.digits 10 n :=
  decDigits_eq_digits n n le_rfl

theorem pyNatReprL_length_of_pow (M : Nat) :
    (pyNatReprL (10 ^ (M + 1))).length = M + 2 := by
  have hne : 10 ^ (M + 1) ≠ 0 := by positivity
  rw [pyNatReprL, if_neg hne, List.length_reverse, List.length_map,
    pyNatDigits_eq, Nat.digits_len 10 _ (by norm_num) hne, Nat.log_pow (by norm_num)]

theorem splitextL_append (l : List Char) :
    (splitextL l).1 ++ (splitextL l).2 = l := by
  unfold splitextL
  cases h : l.reverse.findIdx? (fun c => c = '.') with
  | none => simp
  | some i =>
    dsimp only
    split
    · exact List.take_append_drop _ _
    · simp

theorem string_append_data (a b : String) : (a ++ b).data = a.data ++ b.data := by
  cases a; cases b; rfl

theorem string_eq_of_data (a b : String) (h : a.data = b.data) : a = b := by
  cases a; cases b; exact congrArg String.mk h

theorem str_append_assoc (a b c : String) : a ++ b ++ c = a ++ (b ++ c) := by
  apply string_eq_of_data
  simp [string_append_data]

theorem asString_data (s : String) : s.data.asString = s := by
  cases s; rfl

theorem splitext_append (s : String) : (splitext s).1 ++ (splitext s).2 = s := by
  apply string_eq_of_data
  rw [string_append_data]
  show (splitextL s.data).1 ++ (splitextL s.data).2 = s.data
  exact splitextL_append s.data

theorem length_le_maxLen (folder : List (List Char)) :
    ∀ x ∈ folder, x.length ≤ maxLen folder := by
  induction folder with
  | nil => intro x hx; cases hx
  | cons y t ih =>
    intro x hx
    rcases List.mem_cons.mp hx with rfl | hx'
    · exact le_max_left _ _
    · exact le_trans (ih x hx') (le_max_right _ _)

theorem candName_length (base ext : List Char) (k : Nat) :
    (candName base ext k).length =
      base.length + 1 + (pyNatReprL k).length + ext.length := by
  simp [candName]
  omega

/-- A candidate long enough to miss every name of the folder. -/
theorem freeCand (folder : List (List Char)) (base ext : List Char) :
    candName base ext (10 ^ (maxLen folder + 1)) ∉ folder := by
  intro hmem
  have h1 := length_le_maxLen folder _ hmem
  rw [candName_length, pyNatReprL_length_of_pow] at h1
  omega

/-- Correctness of the probe loop: if a free index exists within the
fuel's range, the loop returns the least free index at or above the
start. -/
theorem probeLoop_spec (folder : List (List Char)) (base ext : List Char) :
    ∀ (fuel k : Nat), (∃ j, k ≤ j ∧ j < k + fuel ∧ candName base ext j ∉ folder) →
      candName base ext (probeLoop folder base ext fuel k) ∉ folder ∧
      k ≤ probeLoop folder base ext fuel k ∧
      ∀ j, k ≤ j → j < probeLoop folder base ext fuel k → candName base ext j ∈ folder := by
  intro fuel
  induction fuel with
  | zero =>
    rintro k ⟨j, hkj, hlt, -⟩
    omega
  | succ f ih =>
    rintro k ⟨j, hkj, hlt, hfree⟩
    rw [probeLoop]
    by_cases hmem : candName base ext k ∈ folder
    · rw [if_pos hmem]
      have hjk : j ≠ k := fun h => hfree (h ▸ hmem)
      obtain ⟨h1, h2, h3⟩ := ih (k + 1) ⟨j, by omega, by omega, hfree⟩
      refine ⟨h1, by omega, fun j' hj1 hj2 => ?_⟩
      by_cases hj : j' = k
      · exact hj ▸ hmem
      · exact h3 j' (by omega) hj2
    · rw [if_neg hmem]
      exact ⟨hmem, le_rfl, fun j' h1 h2 => absurd h2 (by omega)⟩

theorem gufL_not_mem (folder : List (List Char)) (filename : List Char) :
    gufL folder filename ∉ folder := by
  unfold gufL
  by_cases h : (splitextL filename).1 ++ (splitextL filename).2 ∈ folder
  · rw [if_pos h]
    exact (probeLoop_spec folder _ _ _ 1
      ⟨10 ^ (maxLen folder + 1),
        Nat.one_le_pow _ _ (by norm_num), by omega, freeCand folder _ _⟩).1
  · rw [if_neg h]
    exact h

theorem gufL_of_not_mem (folder : List (List Char)) (filename : List Char)
    (h : filename ∉ folder) : gufL folder filename = filename := by
  have h' : ¬((splitextL filename).1 ++ (splitextL filename).2 ∈ folder) := by
    rw [splitextL_append]; exact h
  unfold gufL
  rw [if_neg h', splitextL_append]

theorem gufL_of_mem (folder : List (List Char)) (filename : List Char)
    (h : filename ∈ folder) :
    ∃ k, 1 ≤ k ∧
      gufL folder filename = candName (splitextL filename).1 (splitextL filename).2 k ∧
      gufL folder filename ∉ folder ∧
      ∀ j, 1 ≤ j → j < k → candName (splitextL filename).1 (splitextL filename).2 j ∈ folder := by
  have h' : (splitextL filename).1 ++ (splitextL filename).2 ∈ folder := by
    rw [splitextL_append]; exact h
  obtain ⟨h1, h2, h3⟩ := probeLoop_spec folder (splitextL filename).1 (splitextL filename).2
    (10 ^ (maxLen folder + 1) + 1) 1
    ⟨10 ^ (maxLen folder + 1), Nat.one_le_pow _ _ (by norm_num), by omega,
      freeCand folder _ _⟩
  refine ⟨probeLoop folder (splitextL filename).1 (splitextL filename).2
    (10 ^ (maxLen folder + 1) + 1) 1, h2, ?_, ?_, h3⟩
  · unfold gufL
    rw [if_pos h']
  · have hg : gufL folder filename = candName (splitextL filename).1 (splitextL filename).2
        (probeLoop folder (splitextL filename).1 (splitextL filename).2
          (10 ^ (maxLen folder + 1) + 1) 1) := by
      unfold gufL
      rw [if_pos h']
    rw [hg]
    exact h1

theorem mem_map_data (folder : List String) (s : String) :
    s.data ∈ folder.map String.data ↔ s ∈ folder := by
  constructor
  · intro h
    rcases List.mem_map.mp h with ⟨x, hx, hd⟩
    exact (string_eq_of_data x s hd) ▸ hx
  · exact fun h => List.mem_map_of_mem _ h

theorem strCand_asString (b e : List Char) (k : Nat) :
    (candName b e k).asString = strCand b.asString e.asString k := by
  apply string_eq_of_data
  show candName b e k = (b.asString ++ "_" ++ pyStr k ++ e.asString).data
  rw [string_append_data, string_append_data, string_append_data]
  show b ++ '_' :: pyNatReprL k ++ e = b ++ ['_'] ++ pyNatReprL k ++ e
  simp

/-- The poll makes at most one attempt per schedule slot and sleeps only
the scheduled times, in order. -/
theorem pollAux_bounds (f : Nat → Option String) (l : List Nat) :
    (pollAux f l).attempts ≤ l.length ∧
      (pollAux f l).waits <+: l.map (fun i => waitingTimes.getD i 0) := by
  induction l with
  | nil => exact ⟨le_rfl, List.nil_prefix⟩
  | cons i rest ih =>
    rw [pollAux]
    cases f i with
    | some u => exact ⟨by simp, List.nil_prefix⟩
    | none =>
      obtain ⟨t, ht⟩ := ih.2
      exact ⟨by simpa using Nat.succ_le_succ ih.1, ⟨t, by simp [ht]⟩⟩

/-! ## Claim theorems -/

/-- C2: filename synthesis concatenates `shortCategory`, `shortItem`,
`typeDocCode`, `amount`, `date`, in that fixed order, joined by the
fixed separator `"_"`, then appends the original extension; in
particular the `ОФ`/`Канц`/`Чек`/`150.00`/`05-06-24`/`.jpg` scenario
yields `"ОФ_Канц_Чек_150.00_05-06-24.jpg"`. -/
theorem c2_synthesize_spec :
    (∀ short_category short_item typedoc summ date ext : String,
      synthesize short_category short_item typedoc summ date ext =
        synthesizeSpec short_category short_item typedoc summ date ext) ∧
    synthesize "ОФ" "Канц" "Чек" "150.00" "05-06-24" ".jpg" =
      "ОФ_Канц_Чек_150.00_05-06-24.jpg" := by
  constructor
  · intro sc si td amt d ext
    simp [synthesize, synthesizeBase, synthesizeSpec, joinSep, str_append_assoc]
  · decide

/-- C3, counterexample: the claim asserts the sequence of waits is
`1, 2, 4, 6, 9`, but `(i+1)² − i` evaluated by the code gives waits
`1, 3, 7, 13, 21` (shown on the run where every attempt fails). -/
theorem c3_waits_counterexample :
    (create_file_public_url (fun _ => none)).2.waits = [1, 3, 7, 13, 21] ∧
    waitingTimes = [1, 3, 7, 13, 21] ∧
    waitingTimes ≠ [1, 2, 4, 6, 9] := by
  refine ⟨by decide, by decide, by decide⟩

/-- C3, amended: the public-URL poll makes at most 5 attempts, and the
wait after the attempt with index `i` equals `(i+1)² − i`, i.e. the
sequence of waits is `1, 3, 7, 13, 21` (the waits actually performed are
always a prefix of that schedule). -/
theorem c3_poll_schedule :
    ∀ f : Nat → Option String,
      (create_file_public_url f).2.attempts ≤ 5 ∧
      (create_file_public_url f).2.waits <+: [1, 3, 7, 13, 21] ∧
      waitingTimes = (List.range 5).map (fun i => (i + 1) ^ 2 - i) ∧
      waitingTimes = [1, 3, 7, 13, 21] := by
  intro f
  have h := pollAux_bounds f (List.range 5)
  have hr : (create_file_public_url f).2 = pollAux f (List.range 5) := rfl
  have hm : (List.range 5).map (fun i => waitingTimes.getD i 0) = [1, 3, 7, 13, 21] := by decide
  refine ⟨?_, ?_, rfl, by decide⟩
  · rw [hr]
    simpa using h.1
  · rw [hr]
    rw [hm] at h
    exact h.2

/-- C4: `resolveUnique` returns the candidate unchanged when no file of
that name exists in the folder; otherwise it returns `base_k.ext` for
the smallest `k ≥ 1` whose name does not exist, probing sequentially; in
particular a folder already holding `"ОФ_Канц_Чек_150.00_05-06-24.jpg"`
yields `"ОФ_Канц_Чек_150.00_05-06-24_1.jpg"`. -/
theorem c4_resolveUnique_spec :
    (∀ (folder : List String) (name : String),
      (name ∉ folder → get_unique_filename folder name = name) ∧
      (name ∈ folder →
        ∃ k, 1 ≤ k ∧
          get_unique_filename folder name =
            strCand (splitext name).1 (splitext name).2 k ∧
          get_unique_filename folder name ∉ folder ∧
          ∀ j, 1 ≤ j → j < k →
            strCand (splitext name).1 (splitext name).2 j ∈ folder)) ∧
    get_unique_filename ["ОФ_Канц_Чек_150.00_05-06-24.jpg"]
        "ОФ_Канц_Чек_150.00_05-06-24.jpg" =
      "ОФ_Канц_Чек_150.00_05-06-24_1.jpg" := by
  constructor
  · intro folder name
    constructor
    · intro h
      have hL : name.data ∉ folder.map String.data :=
        fun hm => h ((mem_map_data folder name).mp hm)
      show (gufL (folder.map String.data) name.data).asString = name
      rw [gufL_of_not_mem _ _ hL, asString_data]
    · intro h
      have hL : name.data ∈ folder.map String.data := (mem_map_data folder name).mpr h
      obtain ⟨k, hk1, heq, hnot, hmin⟩ := gufL_of_mem _ _ hL
      refine ⟨k, hk1, ?_, ?_, ?_⟩
      · show (gufL (folder.map String.data) name.data).asString = _
        rw [heq]
        exact strCand_asString _ _ k
      · intro hmem
        exact hnot ((mem_map_data folder _).mpr hmem)
      · intro j hj1 hj2
        have hj := hmin j hj1 hj2
        have h2 : (strCand (splitext name).1 (splitext name).2 j).data =
            candName (splitextL name.data).1 (splitextL name.data).2 j := by
          have h3 := strCand_asString (splitextL name.data).1 (splitextL name.data).2 j
          exact (congrArg String.data h3).symm
        exact (mem_map_data folder _).mp (h2 ▸ hj)
  · decide

/-- C4, witness: at a folder not containing the candidate, the name is
returned unchanged. -/
theorem c4_witness :
    ¬ ("чек.jpg" ∈ ([] : List String)) ∧
    get_unique_filename [] "чек.jpg" = "чек.jpg" :=
  ⟨by decide, (c4_resolveUnique_spec.1 [] "чек.jpg").1 (by decide)⟩

/-- C5: `resolveUnique` is idempotent — applying it to its own result,
over the same folder state, returns that result unchanged. -/
theorem c5_resolveUnique_idempotent :
    ∀ (folder : List String) (name : String),
      get_unique_filename folder (get_unique_filename folder name) =
        get_unique_filename folder name := by
  intro folder name
  have hfree := gufL_not_mem (folder.map String.data) name.data
  show (gufL (folder.map String.data)
      (gufL (folder.map String.data) name.data).asString.data).asString =
    (gufL (folder.map String.data) name.data).asString
  rw [show (gufL (folder.map String.data) name.data).asString.data =
      gufL (folder.map String.data) name.data from rfl]
  rw [gufL_of_not_mem _ _ hfree]

/-- C9: an unauthorized user's message — any content, any conversation
state — produces the fixed rejection reply, leaves the user's
conversation-state entry untouched, changes no template binding, and
raises nothing: every handler is wrapped in `require_authorization`. -/
theorem c9_unauthorized_no_mutation :
    ∀ (env : Env) (usersFile : Option String) (uid : Nat) (binding : Option String)
      (entry : Option StateData) (msg : Msg),
      is_authorized usersFile uid = false →
      handle_message env (is_authorized usersFile uid) binding entry msg =
        ⟨entry, binding, [denyMsg], none⟩ := by
  intro env usersFile uid binding entry msg h
  simp [handle_message, h]

/-- C9, witness: with the authorized-users file missing, a `/start` from
user 12345 is rejected with no state created. -/
theorem c9_witness :
    is_authorized none 12345 = false ∧
    handle_message
        ⟨"05-06-24", "120000", [], fun _ => [], [], none, none, none, true, fun _ => none⟩
        (is_authorized none 12345) none none (Msg.text "/start") =
      ⟨none, none, [denyMsg], none⟩ :=
  ⟨rfl, c9_unauthorized_no_mutation _ none 12345 none none _ rfl⟩

/-- C10: `is_authorized` is a plain substring test — true iff the
decimal string of the user id occurs anywhere in the file contents
(false when the file is missing); consequently a file listing only
`"1234"` also authorizes users 23 and 123, whose ids are not the listed
entry. -/
theorem c10_substring_authorization :
    (∀ (contents : String) (uid : Nat),
      is_authorized (some contents) uid = true ↔
        IsSubstring (pyStr uid).data contents.data) ∧
    (∀ uid : Nat, is_authorized none uid = false) ∧
    is_authorized (some "1234") 23 = true ∧
    is_authorized (some "1234") 123 = true ∧
    pyStr 23 ≠ "1234" ∧ pyStr 123 ≠ "1234" := by
  refine ⟨?_, fun uid => rfl, by decide, by decide, by decide, by decide⟩
  intro contents uid
  exact substringB_iff _ _

/-- C6: in `awaiting_item`, a typed text (other than the global "back"
command) matching no item row under the stored category stores
`shortCategory` from the category's first listed row, `shortItem` equal
to the first 6 characters of the typed text (e.g. `"Такси ночью"` gives
`"Такси "`), and advances to `awaiting_typedoc`. -/
theorem c6_item_fallback :
    (∀ (env : Env) (binding : Option String) (sd : StateData) (df : List Row)
        (text : String) (row : Row),
      sd.state = BState.awaiting_item →
      sd.df = some df →
      pyStrip text ≠ "🔙 Назад" →
      (df.filter (fun r => sd.category == some r.category && r.item == pyStrip text)).isEmpty
        = true →
      (df.filter (fun r => sd.category == some r.category)).head? = some row →
      handle_text_inputs env binding (some sd) text =
        ⟨some { sd with state := BState.awaiting_typedoc
                        shortCategory := some row.shortCategory
                        shortItem := some (pyTake 6 (pyStrip text)) }, binding,
          ["Выберите тип документа:"], none⟩) ∧
    pyTake 6 "Такси ночью" = "Такси " := by
  constructor
  · intro env binding sd df text row hst hdf hback hempty hhead
    obtain ⟨st, tn, dfo, cato, sc0, si0, td0, su0, da0⟩ := sd
    dsimp only at hst hdf hempty hhead ⊢
    subst hst
    subst hdf
    simp only [handle_text_inputs, if_neg hback, hempty, hhead, if_true]
  · decide

/-- C6, witness: the fallback scenario with category `"Транспорт"` and
typed text `"Такси ночью"`. -/
theorem c6_witness :
    handle_text_inputs
        ⟨"05-06-24", "120000", [], fun _ => [], [], none, none, none, true, fun _ => none⟩
        none
        (some { state := BState.awaiting_item,
                df := some [⟨"Транспорт", "Метро", "Трн", "Мтр"⟩],
                category := some "Транспорт" })
        "Такси ночью" =
      ⟨some { state := BState.awaiting_typedoc,
              df := some [⟨"Транспорт", "Метро", "Трн", "Мтр"⟩],
              category := some "Транспорт",
              shortCategory := some "Трн",
              shortItem := some "Такси " }, none,
        ["Выберите тип документа:"], none⟩ := by
  have h := c6_item_fallback.1
    ⟨"05-06-24", "120000", [], fun _ => [], [], none, none, none, true, fun _ => none⟩
    none
    { state := BState.awaiting_item,
      df := some [⟨"Транспорт", "Метро", "Трн", "Мтр"⟩],
      category := some "Транспорт" }
    [⟨"Транспорт", "Метро", "Трн", "Мтр"⟩]
    "Такси ночью" ⟨"Транспорт", "Метро", "Трн", "Мтр"⟩
    rfl rfl (by decide) (by decide) (by decide)
  exact h.trans (by decide)

/-- C7: in `awaiting_sum`, an input (other than the global "back"
command) matching `^\d+(\.\d{1,2})?$` is stored as the amount and the
machine advances to `awaiting_date_choice`; a non-matching input is
rejected and the machine stays in `awaiting_sum` with nothing stored. -/
theorem c7_sum_validation :
    ∀ (env : Env) (binding : Option String) (sd : StateData) (text0 : String),
      sd.state = BState.awaiting_sum →
      pyStrip text0 ≠ "🔙 Назад" →
      (pyMatchSum text0 = true →
        handle_text_inputs env binding (some sd) text0 =
          ⟨some { sd with summ := some text0, state := BState.awaiting_date_choice }, binding,
            ["Выберите дату:"], none⟩) ∧
      (pyMatchSum text0 = false →
        handle_text_inputs env binding (some sd) text0 =
          ⟨some sd, binding,
            ["❌ Введите корректную сумму (только цифры, можно с точкой)."], none⟩) := by
  intro env binding sd text0 hst hback
  obtain ⟨st, tn, dfo, cato, sc0, si0, td0, su0, da0⟩ := sd
  dsimp only at hst ⊢
  subst hst
  constructor <;> intro hm <;>
    simp only [handle_text_inputs, if_neg hback, hm, if_true, if_false, Bool.false_eq_true]

/-- C7, witness: `"150.00"` advances and is stored; `"12,5"`, `"abc"`
and `""` are rejected in place. -/
theorem c7_witness :
    pyMatchSum "150.00" = true ∧
    pyMatchSum "12,5" = false ∧ pyMatchSum "abc" = false ∧ pyMatchSum "" = false ∧
    handle_text_inputs
        ⟨"05-06-24", "120000", [], fun _ => [], [], none, none, none, true, fun _ => none⟩
        none (some { state := BState.awaiting_sum }) "150.00" =
      ⟨some { state := BState.awaiting_date_choice, summ := some "150.00" }, none,
        ["Выберите дату:"], none⟩ ∧
    handle_text_inputs
        ⟨"05-06-24", "120000", [], fun _ => [], [], none, none, none, true, fun _ => none⟩
        none (some { state := BState.awaiting_sum }) "12,5" =
      ⟨some { state := BState.awaiting_sum }, none,
        ["❌ Введите корректную сумму (только цифры, можно с точкой)."], none⟩ := by
  refine ⟨by decide, by decide, by decide, by decide, ?_, ?_⟩
  · have h := (c7_sum_validation
      ⟨"05-06-24", "120000", [], fun _ => [], [], none, none, none, true, fun _ => none⟩
      none { state := BState.awaiting_sum } "150.00" rfl (by decide)).1 (by decide)
    exact h.trans (by decide)
  · have h := (c7_sum_validation
      ⟨"05-06-24", "120000", [], fun _ => [], [], none, none, none, true, fun _ => none⟩
      none { state := BState.awaiting_sum } "12,5" rfl (by decide)).2 (by decide)
    exact h.trans (by decide)

/-- C8: in `awaiting_custom_date`, an input (other than the global
"back" command) parseable as a `DD-MM-YY` date is stored literally and
the machine advances to `uploading_file`; an unparseable input — and an
impossible calendar date such as `"31-02-25"` parses to nothing — is
rejected with the state unchanged. -/
theorem c8_custom_date :
    (∀ (env : Env) (binding : Option String) (sd : StateData) (text0 : String),
      sd.state = BState.awaiting_custom_date →
      pyStrip text0 ≠ "🔙 Назад" →
      ((∃ d, pyStrptimeDMY text0 = some d) →
        handle_text_inputs env binding (some sd) text0 =
          ⟨some { sd with date := some text0, state := BState.uploading_file }, binding,
            ["📄 Загрузите файл. Если это картинка, прикрепите её, как документ"], none⟩) ∧
      (pyStrptimeDMY text0 = none →
        handle_text_inputs env binding (some sd) text0 =
          ⟨some sd, binding,
            ["❌ Некорректный формат даты. Введите в формате ДД-ММ-ГГ"], none⟩)) ∧
    pyStrptimeDMY "31-02-25" = none := by
  constructor
  · intro env binding sd text0 hst hback
    obtain ⟨st, tn, dfo, cato, sc0, si0, td0, su0, da0⟩ := sd
    dsimp only at hst ⊢
    subst hst
    constructor
    · rintro ⟨d, hd⟩
      simp only [handle_text_inputs, if_neg hback, hd]
    · intro hd
      simp only [handle_text_inputs, if_neg hback, hd]
  · decide

/-- C8, witness: `"05-06-24"` advances and is stored literally;
`"31-02-25"` is rejected in place. -/
theorem c8_witness :
    handle_text_inputs
        ⟨"01-01-24", "120000", [], fun _ => [], [], none, none, none, true, fun _ => none⟩
        none (some { state := BState.awaiting_custom_date }) "05-06-24" =
      ⟨some { state := BState.uploading_file, date := some "05-06-24" }, none,
        ["📄 Загрузите файл. Если это картинка, прикрепите её, как документ"], none⟩ ∧
    handle_text_inputs
        ⟨"01-01-24", "120000", [], fun _ => [], [], none, none, none, true, fun _ => none⟩
        none (some { state := BState.awaiting_custom_date }) "31-02-25" =
      ⟨some { state := BState.awaiting_custom_date }, none,
        ["❌ Некорректный формат даты. Введите в формате ДД-ММ-ГГ"], none⟩ := by
  constructor
  · have h := (c8_custom_date.1
      ⟨"01-01-24", "120000", [], fun _ => [], [], none, none, none, true, fun _ => none⟩
      none { state := BState.awaiting_custom_date } "05-06-24" rfl (by decide)).1
      ⟨(5, 6, 24), by decide⟩
    exact h.trans (by decide)
  · have h := (c8_custom_date.1
      ⟨"01-01-24", "120000", [], fun _ => [], [], none, none, none, true, fun _ => none⟩
      none { state := BState.awaiting_custom_date } "31-02-25" rfl (by decide)).2 (by decide)
    exact h.trans (by decide)

/-- C1, counterexample: the claim says a failing remote upload is
surfaced as a failure message with the state cleared back to idle; at
this input the upload fails with a non-"already exists" error, yet
`processing_document` sends no message at all and the conversation
state is left at `uploading_file` (the exception escapes the handler). -/
theorem c1_counterexample :
    processing_document
        ⟨"05-06-24", "120000", [], fun _ => [], [], none, some RemoteErr.other, none, true,
          fun _ => none⟩
        (some "Шаблон_Тест")
        (some { state := BState.uploading_file, shortCategory := some "ОФ",
                shortItem := some "Канц", typedoc := some "Чек", summ := some "150.00",
                date := some "05-06-24" })
        (Msg.document "чек.jpg" (XlsxContent.table [])) =
      ⟨some { state := BState.uploading_file, shortCategory := some "ОФ",
              shortItem := some "Канц", typedoc := some "Чек", summ := some "150.00",
              date := some "05-06-24" }, some "Шаблон_Тест", [],
        some (PyExc.remote RemoteErr.other)⟩ := by
  rfl

/-- C1, amended: when the remote upload call fails, the exception
escapes `processing_document` uncaught (the source wraps the upload in
no handler): no message is sent to the user, the conversation state is
not cleared, and the dialogue is left exactly where it was — in
particular still in `uploading_file`. -/
theorem c1_upload_failure_escapes :
    ∀ (env : Env) (binding : Option String) (entry : Option StateData) (att : Msg)
      (t : String) (e : RemoteErr),
      (∀ s, att ≠ Msg.text s) →
      binding = some t →
      (env.mkdirRes = none ∨ env.mkdirRes = some RemoteErr.pathExists) →
      env.uploadRes = some e →
      processing_document env binding entry att =
        ⟨entry, binding, [], some (PyExc.remote e)⟩ := by
  intro env binding entry att t e hatt hb hmk hup
  subst hb
  cases att with
  | text s => exact absurd rfl (hatt s)
  | document f c =>
    rcases hmk with hmk | hmk <;> simp [processing_document, hmk, hup]
  | photo =>
    rcases hmk with hmk | hmk <;> simp [processing_document, hmk, hup]

/-- C1, witness for the amended claim: a photo upload whose remote
upload call fails leaves the (empty) state untouched and sends nothing. -/
theorem c1_witness :
    processing_document
        ⟨"05-06-24", "120000", [], fun _ => [], [], some RemoteErr.pathExists,
          some RemoteErr.other, none, true, fun _ => none⟩
        (some "Шаблон_Тест") none Msg.photo =
      ⟨none, some "Шаблон_Тест", [], some (PyExc.remote RemoteErr.other)⟩ :=
  c1_upload_failure_escapes _ _ none Msg.photo "Шаблон_Тест" RemoteErr.other
    (fun _ h => Msg.noConfusion h) rfl (Or.inr rfl) rfl

end GrantBot
